import Mathlib

/-!
# Verification of the customer-feedback join pipeline

A shallow embedding of `src/pipeline.py`: decoded JSON payloads, the
shape validator, the two identifier normalizers, join-key
standardization, the derived-field computation, the diagnostic inner
join, and the orchestrating `run` with its exit codes.  Cell values are
modelled by an inductive `Value` type (pandas object cells), a data
frame by its column list together with one association list per row,
and rational numbers stand for Python's numeric results.
-/

set_option maxHeartbeats 1000000

namespace CxPipeline

/-- A decoded JSON document (the result of `resp.json()`). -/
inductive Json where
  | null : Json
  | bool (b : Bool) : Json
  | num (q : ℚ) : Json
  | str (s : String) : Json
  | arr (xs : List Json) : Json
  | obj (kvs : List (String × Json)) : Json

mutual

/-- A textual rendering of a JSON value, used to keep a nested value as
an opaque text cell when it lands in a data frame. -/
def jsonRender : Json → String
  | .null => "null"
  | .bool b => cond b "true" "false"
  | .num q => toString q
  | .str s => "\"" ++ s ++ "\""
  | .arr xs => "[" ++ jsonRenderList xs ++ "]"
  | .obj kvs => "\x7b" ++ jsonRenderKvs kvs ++ "\x7d"

/-- Renders the elements of a JSON array, comma separated. -/
def jsonRenderList : List Json → String
  | [] => ""
  | [x] => jsonRender x
  | x :: xs => jsonRender x ++ "," ++ jsonRenderList xs

/-- Renders the entries of a JSON object, comma separated. -/
def jsonRenderKvs : List (String × Json) → String
  | [] => ""
  | (k, v) :: kvs => "\"" ++ k ++ "\":" ++ jsonRender v ++ "," ++ jsonRenderKvs kvs

end

/-- Key access in an association list (Python dict access). -/
def alookup {β : Type} (c : String) : List (String × β) → Option β
  | [] => none
  | (k, v) :: t => if c = k then some v else alookup c t

/-- `isinstance(x, dict)` on a decoded JSON value. -/
def Json.isDict : Json → Bool
  | .obj _ => true
  | _ => false

/--
`expect_list_under_key(obj, key)` from `pipeline.py`: validate that the
value is a dict containing a list of dicts under `key`, returning the
`(ok, list, error_message)` triple.  An empty list passes the
element check because `val and not all(...)` is skipped for a falsy
(empty) list.
-/
def expect_list_under_key (o : Json) (key : String) :
    Bool × Option (List Json) × Option String :=
  match o with
  | .obj kvs =>
    match alookup key kvs with
    | none => (false, none, some ("missing_key:" ++ key))
    | some (.arr xs) =>
      if !xs.isEmpty && !(xs.all Json.isDict) then
        (false, none, some ("list_elements_not_dict:" ++ key))
      else
        (true, some xs, none)
    | some _ => (false, none, some ("value_not_list:" ++ key))
  | _ => (false, none, some "top_level_not_dict")

/-- A pandas object cell: the scalar kinds the pipeline's payloads can
hold.  `vNull` models a missing cell (`NaN`/`None`); `vObj` keeps a
nested structure as an opaque object cell, identified by its
rendering. -/
inductive Value where
  | vBool (b : Bool) : Value
  | vInt (n : ℤ) : Value
  | vNum (q : ℚ) : Value
  | vStr (s : String) : Value
  | vObj (r : String) : Value
  | vNull : Value
  deriving DecidableEq

/-- One data-frame row: an association list from column name to cell. -/
abbrev Row := List (String × Value)

/-- A pandas DataFrame: named columns plus a row list. -/
structure DataFrame where
  cols : List String
  rows : List Row
  deriving DecidableEq

/-- `str(x)` / `.astype(str)` on a cell.  Integral floats print with a
trailing `.0` as in Python; a non-integral rational keeps its Lean
representation rather than a float repr, and an opaque nested object
prints as its rendering — neither form is ever produced by the
pipeline's key columns. -/
def pyStr : Value → String
  | .vBool b => if b then "True" else "False"
  | .vInt n => toString n
  | .vNum q => if q.den = 1 then toString q.num ++ ".0" else toString q
  | .vStr s => s
  | .vObj r => r
  | .vNull => "nan"

/-- `str.replace("cid", "")`: Python's left-to-right, non-overlapping
removal of every literal occurrence of the substring `"cid"`. -/
def removeCidChars : List Char → List Char
  | 'c' :: 'i' :: 'd' :: rest => removeCidChars rest
  | ch :: rest => ch :: removeCidChars rest
  | [] => []

/-- `s.replace("cid", "")` on a string. -/
def removeCid (s : String) : String :=
  String.mk (removeCidChars s.data)

example : removeCid "cid123" = "123" := by decide
example : removeCid "cid123cid" = "123" := by decide
example : removeCid "cid1cid" = "1" := by decide

/-- Reads the cell of row `r` at column `c`; a column absent from the
row is a missing cell. -/
def getCell (r : Row) (c : String) : Value :=
  match alookup c r with
  | some v => v
  | none => .vNull

/-- Writes value `v` at column `c` of row `r`: overwrite the entry when
the column is present, append it otherwise (pandas column
assignment). -/
def setCell (r : Row) (c : String) (v : Value) : Row :=
  if (alookup c r).isSome then
    r.map (fun p => if p.1 = c then (c, v) else p)
  else
    r ++ [(c, v)]

/-- `df.rename(columns=...)` for a single column: renames it in the
header and in every row. -/
def renameCol (df : DataFrame) (old new : String) : DataFrame :=
  { cols := df.cols.map (fun c => if c = old then new else c),
    rows := df.rows.map (fun r => r.map (fun p => if p.1 = old then (new, p.2) else p)) }

/-- `df[c] = <expression over the row>`: column assignment, computed
row-wise. -/
def assignCol (df : DataFrame) (c : String) (g : Row → Value) : DataFrame :=
  { cols := if c ∈ df.cols then df.cols else df.cols ++ [c],
    rows := df.rows.map (fun r => setCell r c (g r)) }

/-- The distinct elements of a list, keeping first occurrences in
order. -/
def uniqueList {α : Type} [DecidableEq α] : List α → List α
  | [] => []
  | a :: l => a :: (uniqueList l).filter (fun b => decide (b ≠ a))

/-- A decoded JSON scalar as a pandas cell.  A JSON integer stays an
integer (Python's `json` module distinguishes `int` from `float`); a
nested array/object is kept as an opaque object cell. -/
def jsonToValue : Json → Value
  | .null => .vNull
  | .bool b => .vBool b
  | .num q => if q.den = 1 then .vInt q.num else .vNum q
  | .str s => .vStr s
  | .arr xs => .vObj (jsonRender (.arr xs))
  | .obj kvs => .vObj (jsonRender (.obj kvs))

/-- The fields of one record in a validated list (always a dict after
shape validation). -/
def recordFields : Json → List (String × Json)
  | .obj kvs => kvs
  | _ => []

/-- `pd.DataFrame(list_of_dicts)`: columns are the union of the
records' keys in order of first appearance; a record missing a column
gets a missing cell there. -/
def dfOfRecords (xs : List Json) : DataFrame :=
  let cols := uniqueList (xs.flatMap (fun x => (recordFields x).map Prod.fst))
  { cols := cols,
    rows := xs.map (fun x =>
      cols.map (fun c =>
        (c, match alookup c (recordFields x) with
            | some j => jsonToValue j
            | none => Value.vNull))) }

/-- `normalize_feedback_df` from `pipeline.py`: keep an existing
`customer_id` column, else rename an `id` column to `customer_id`,
else pass through (warning only). -/
def normalize_feedback_df (df : DataFrame) : DataFrame :=
  if "customer_id" ∈ df.cols then df
  else if "id" ∈ df.cols then renameCol df "id" "customer_id"
  else df

/-- Second half of `normalize_customer_df`: once the rename step has
run, pass through when `customer_id` is still absent (warning only),
otherwise re-assign the column as
`astype(str).str.replace("cid", "", regex=False)`. -/
def normalize_customer_clean (df : DataFrame) : DataFrame :=
  if "customer_id" ∉ df.cols then df
  else assignCol df "customer_id"
    (fun r => .vStr (removeCid (pyStr (getCell r "customer_id"))))

/-- `normalize_customer_df` from `pipeline.py`: rename `customerId` to
`customer_id` when the latter is absent, then clean the identifier
column per `normalize_customer_clean`. -/
def normalize_customer_df (df : DataFrame) : DataFrame :=
  if "customer_id" ∉ df.cols ∧ "customerId" ∈ df.cols then
    normalize_customer_clean (renameCol df "customerId" "customer_id")
  else
    normalize_customer_clean df

/-- `standardize_join_keys` from `pipeline.py`: cast each side's
`customer_id` column to string when the column exists. -/
def standardize_join_keys (feedback_df customer_df : DataFrame) :
    DataFrame × DataFrame :=
  (if "customer_id" ∈ feedback_df.cols then
     assignCol feedback_df "customer_id" (fun r => .vStr (pyStr (getCell r "customer_id")))
   else feedback_df,
   if "customer_id" ∈ customer_df.cols then
     assignCol customer_df "customer_id" (fun r => .vStr (pyStr (getCell r "customer_id")))
   else customer_df)

/-- Value of an unsigned digit string. -/
def digitsToNat (ds : List Char) : ℕ :=
  ds.foldl (fun n d => 10 * n + (d.toNat - 48)) 0

/-- Decimal fragment of numeric string parsing: digits with an optional
single decimal point (signs handled by the caller). -/
def parseUnsignedNum (ds : List Char) : Option ℚ :=
  match ds.splitOn '.' with
  | [w] => if !w.isEmpty && w.all Char.isDigit then some (digitsToNat w : ℚ) else none
  | [w, f] =>
    if (!w.isEmpty || !f.isEmpty) && w.all Char.isDigit && f.all Char.isDigit then
      some ((digitsToNat w : ℚ) + (digitsToNat f : ℚ) / (10 : ℚ) ^ f.length)
    else none
  | _ => none

/-- Numeric parsing of a string cell by `pd.to_numeric(...,
errors="coerce")`, restricted to plain signed decimal literals
(scientific notation and other exotic forms are not produced by the
pipeline's payloads); anything else coerces to the missing marker. -/
def parseNumString (s : String) : Option ℚ :=
  match s.trim.data with
  | '-' :: rest => (parseUnsignedNum rest).map (fun q => -q)
  | '+' :: rest => parseUnsignedNum rest
  | t => parseUnsignedNum t

/-- `pd.to_numeric(cell, errors="coerce")` on one cell: numbers and
booleans convert, parseable strings convert, everything else becomes
the missing marker instead of raising. -/
def to_numeric_coerce : Value → Option ℚ
  | .vBool b => some (if b then 1 else 0)
  | .vInt n => some (n : ℚ)
  | .vNum q => some q
  | .vStr s => parseNumString s
  | .vObj _ => none
  | .vNull => none

/-- A numeric-or-missing result as a cell. -/
def optValue : Option ℚ → Value
  | some q => .vNum q
  | none => .vNull

/-- Reads a numeric cell back (cells of a coerced numeric column are
numbers or missing). -/
def cellNum : Value → Option ℚ
  | .vInt n => some (n : ℚ)
  | .vNum q => some q
  | _ => none

/-- `.mean(axis=1, skipna=True)` over the two survey columns. -/
def meanSkipna (a b : Option ℚ) : Option ℚ :=
  match a, b with
  | some x, some y => some ((x + y) / 2)
  | some x, none => some x
  | none, some y => some y
  | none, none => none

/-- `derive_fields` from `pipeline.py`: when both survey columns are
present, coerce each to numeric and add `avg_survey_score`, the
row-wise skipna mean of the two; otherwise return the frame
unchanged. -/
def derive_fields (df : DataFrame) : DataFrame :=
  if "survey_q1" ∈ df.cols ∧ "survey_q2" ∈ df.cols then
    let df1 := assignCol df "survey_q1"
      (fun r => optValue (to_numeric_coerce (getCell r "survey_q1")))
    let df2 := assignCol df1 "survey_q2"
      (fun r => optValue (to_numeric_coerce (getCell r "survey_q2")))
    assignCol df2 "avg_survey_score"
      (fun r => optValue (meanSkipna (cellNum (getCell r "survey_q1"))
        (cellNum (getCell r "survey_q2"))))
  else df

/-- Constructor rank used to order cells of mixed kind; the missing
marker ranks last (the `dropna=False` group of a groupby is placed
after all real keys). -/
def valueTag : Value → ℕ
  | .vBool _ => 0
  | .vInt _ => 1
  | .vNum _ => 2
  | .vStr _ => 3
  | .vObj _ => 4
  | .vNull => 5

/-- Strict lexicographic comparison of char lists by code point: the
order in which Python (and hence pandas) compares strings. -/
def strLtChars : List Char → List Char → Bool
  | [], [] => false
  | [], _ :: _ => true
  | _ :: _, [] => false
  | a :: as, b :: bs =>
    if a < b then true else if b < a then false else strLtChars as bs

/-- Lexicographic (code point) string comparison, non-strict. -/
def strLeb (s t : String) : Bool := !(strLtChars t.data s.data)

/-- The sort order of pandas on a key column: payload order between
cells of the same kind (lexicographic for strings), constructor rank
otherwise. -/
def valueLe (a b : Value) : Bool :=
  match a, b with
  | .vBool x, .vBool y => decide (x ≤ y)
  | .vInt m, .vInt n => decide (m ≤ n)
  | .vNum p, .vNum q => decide (p ≤ q)
  | .vStr s, .vStr t => strLeb s t
  | .vObj s, .vObj t => strLeb s t
  | .vNull, .vNull => true
  | a, b => decide (valueTag a ≤ valueTag b)

/-- Inserts an element into a sorted list, keeping it sorted. -/
def orderedInsert (le : Value → Value → Bool) (a : Value) : List Value → List Value
  | [] => [a]
  | b :: l => if le a b then a :: b :: l else b :: orderedInsert le a l

/-- Insertion sort by a boolean comparison. -/
def insertionSortBy (le : Value → Value → Bool) : List Value → List Value
  | [] => []
  | a :: l => orderedInsert le a (insertionSortBy le l)

/-- The `customer_id` column of a frame as a list of cells. -/
def keyList (df : DataFrame) : List Value :=
  df.rows.map (fun r => getCell r "customer_id")

/-- `.nunique(dropna=True)`: number of distinct non-missing cells. -/
def nuniqueDropna (ks : List Value) : ℕ :=
  (uniqueList (ks.filter (fun v => decide (v ≠ .vNull)))).length

/-- The group keys of `groupby("customer_id", dropna=False)`: the
distinct keys in ascending order (groupby sorts its groups). -/
def groupbyKeys (ks : List Value) : List Value :=
  insertionSortBy valueLe (uniqueList ks)

/-- `["_src"].nunique()` for one group key: how many of the two tagged
origins contribute rows with that key. -/
def srcNunique (lks rks : List Value) (k : Value) : ℕ :=
  (if k ∈ lks then 1 else 0) + (if k ∈ rks then 1 else 0)

/-- `counts[counts == 1].index.intersection(_left["customer_id"])`:
the keys referenced by exactly one origin that belong to the left
side, in the (ascending) order of the groupby index. -/
def only_left_ids (lks rks : List Value) : List Value :=
  ((groupbyKeys (lks ++ rks)).filter
    (fun k => decide (srcNunique lks rks k = 1))).filter (fun k => decide (k ∈ lks))

/-- Symmetric to `only_left_ids` for the right side. -/
def only_right_ids (lks rks : List Value) : List Value :=
  ((groupbyKeys (lks ++ rks)).filter
    (fun k => decide (srcNunique lks rks k = 1))).filter (fun k => decide (k ∈ rks))

/-- Suffixes the overlapping non-key columns of one side (`_x`/`_y`
disambiguation of `pd.merge`). -/
def mergeSuffix (common : List String) (suf : String) (r : Row) : Row :=
  r.map (fun p => if p.1 ∈ common then (p.1 ++ suf, p.2) else p)

/-- `feedback_df.merge(customer_df, on="customer_id", how="inner")`:
every left row is paired with every right row carrying the same key
(many-to-many), left rows in order, the key column kept once. -/
def merge_inner (feedback_df customer_df : DataFrame) : DataFrame :=
  let common := feedback_df.cols.filter
    (fun col => decide (col ≠ "customer_id") && decide (col ∈ customer_df.cols))
  { cols := feedback_df.cols.map (fun col => if col ∈ common then col ++ "_x" else col)
      ++ ((customer_df.cols.filter (fun col => decide (col ≠ "customer_id"))).map
            (fun col => if col ∈ common then col ++ "_y" else col)),
    rows := feedback_df.rows.flatMap (fun lr =>
      (customer_df.rows.filter
        (fun rr => decide (getCell rr "customer_id" = getCell lr "customer_id"))).map
        (fun rr => mergeSuffix common "_x" lr ++
          mergeSuffix common "_y" (rr.filter (fun p => decide (p.1 ≠ "customer_id"))))) }

/-- The `missing_join_key` failure diagnostic. -/
structure MissingJoinKey where
  feedback_has_customer_id : Bool
  customer_has_customer_id : Bool
  deriving DecidableEq

/-- The `pre_merge` diagnostic block. -/
structure PreMerge where
  feedback_rows : ℕ
  customer_rows : ℕ
  feedback_unique_ids : ℕ
  customer_unique_ids : ℕ
  deriving DecidableEq

/-- The `key_mismatches` diagnostic block. -/
structure KeyMismatches where
  left_only_count : ℕ
  right_only_count : ℕ
  left_only_sample : List String
  right_only_sample : List String
  deriving DecidableEq

/-- The `post_merge` diagnostic block. -/
structure PostMerge where
  merged_rows : ℕ
  merge_ratio_vs_feedback : ℚ
  merge_ratio_vs_customer : ℚ
  deriving DecidableEq

/-- The diagnostics record assembled by `merge_with_diagnostics`: the
blocks it may add to its dictionary. -/
structure Diagnostics where
  missing_join_key : Option MissingJoinKey
  pre_merge : Option PreMerge
  key_mismatches : Option KeyMismatches
  post_merge : Option PostMerge
  deriving DecidableEq

/-- `merge_with_diagnostics` from `pipeline.py`: short-circuit with a
`missing_join_key` diagnostic and an empty frame when either side
lacks `customer_id`; otherwise record pre-merge stats, the mismatch
analysis with up-to-5-key samples, perform the inner merge, and record
the post-merge stats with guarded ratios. -/
def merge_with_diagnostics (feedback_df customer_df : DataFrame) :
    DataFrame × Diagnostics :=
  if "customer_id" ∈ feedback_df.cols ∧ "customer_id" ∈ customer_df.cols then
    let lks := keyList feedback_df
    let rks := keyList customer_df
    let onlyL := only_left_ids lks rks
    let onlyR := only_right_ids lks rks
    let merged := merge_inner feedback_df customer_df
    (merged,
     { missing_join_key := none,
       pre_merge := some
         { feedback_rows := feedback_df.rows.length,
           customer_rows := customer_df.rows.length,
           feedback_unique_ids := nuniqueDropna lks,
           customer_unique_ids := nuniqueDropna rks },
       key_mismatches := some
         { left_only_count := onlyL.length,
           right_only_count := onlyR.length,
           left_only_sample := (onlyL.take 5).map pyStr,
           right_only_sample := (onlyR.take 5).map pyStr },
       post_merge := some
         { merged_rows := merged.rows.length,
           merge_ratio_vs_feedback :=
             (merged.rows.length : ℚ) / max 1 (feedback_df.rows.length : ℚ),
           merge_ratio_vs_customer :=
             (merged.rows.length : ℚ) / max 1 (customer_df.rows.length : ℚ) } })
  else
    (⟨[], []⟩,
     { missing_join_key := some
         { feedback_has_customer_id := decide ("customer_id" ∈ feedback_df.cols),
           customer_has_customer_id := decide ("customer_id" ∈ customer_df.cols) },
       pre_merge := none,
       key_mismatches := none,
       post_merge := none })

/-- `df.empty`: a frame with no rows or no columns. -/
def DataFrame.empty (df : DataFrame) : Bool :=
  df.rows.isEmpty || df.cols.isEmpty

/-- Well-formedness of a frame as pandas builds one: column names are
distinct and every row carries exactly the header's columns. -/
def DataFrame.WF (df : DataFrame) : Prop :=
  df.cols.Nodup ∧ ∀ r ∈ df.rows, r.map Prod.fst = df.cols

instance (df : DataFrame) : Decidable df.WF := by
  unfold DataFrame.WF; infer_instance

/-- The `FetchResult` dataclass; a failed fetch carries `data=None`,
modelled as the JSON null. -/
structure FetchResult where
  ok : Bool
  data : Json
  status : Option ℤ
  error : Option String

/-- The observable side effects of `run`: the diagnostics-file attempt
and the CSV-file attempt. -/
inductive Effect where
  | diagWrite : Effect
  | csvWrite : Effect
  deriving DecidableEq

/-- The merged frame `run` builds from the two validated payload
lists: build both frames, normalize both sides, standardize the join
keys, and take the merged result of `merge_with_diagnostics`. -/
def runMerged (flist clist : List Json) : DataFrame :=
  (merge_with_diagnostics
    ((standardize_join_keys (normalize_feedback_df (dfOfRecords flist))
        (normalize_customer_df (dfOfRecords clist))).1)
    ((standardize_join_keys (normalize_feedback_df (dfOfRecords flist))
        (normalize_customer_df (dfOfRecords clist))).2)).1

/-- `run` from `pipeline.py`, given the outcomes of its effectful
collaborators (the two fetches and whether the CSV write raises):
returns the process exit code together with the ordered file-write
attempts made before returning.  The CSV file's content (the derived
frame) is not modelled, only the attempt to persist it. -/
def run (feedback_res customer_res : FetchResult) (csvOk : Bool) :
    ℕ × List Effect :=
  if ¬ (feedback_res.ok = true ∧ customer_res.ok = true) then
    (1, [.diagWrite])
  else if ¬ ((expect_list_under_key feedback_res.data "feedback").1 = true ∧
      (expect_list_under_key customer_res.data "customers").1 = true) then
    (2, [.diagWrite])
  else if (runMerged ((expect_list_under_key feedback_res.data "feedback").2.1.getD [])
      ((expect_list_under_key customer_res.data "customers").2.1.getD [])).empty then
    (3, [.diagWrite])
  else if csvOk then (0, [.csvWrite, .diagWrite])
  else (4, [.csvWrite, .diagWrite])

/-! ## Cell and row lemmas -/

theorem alookup_map_replace (r : Row) (c : String) (v : Value)
    (h : (alookup c r).isSome) :
    alookup c (r.map (fun p => if p.1 = c then (c, v) else p)) = some v := by
  induction r with
  | nil => simp [alookup] at h
  | cons p t ih =>
    obtain ⟨k, w⟩ := p
    by_cases hp : k = c
    · have hhead : (if (k, w).1 = c then ((c, v) : String × Value) else (k, w))
        = (c, v) := if_pos hp
      rw [List.map_cons, hhead]
      simp [alookup]
    · have hck : ¬ c = k := fun hh => hp hh.symm
      have hhead : (if (k, w).1 = c then ((c, v) : String × Value) else (k, w))
        = (k, w) := if_neg hp
      rw [List.map_cons, hhead]
      simp only [alookup, if_neg hck] at h ⊢
      exact ih h

theorem alookup_map_replace_ne (r : Row) (c c' : String) (v : Value)
    (hne : c' ≠ c) :
    alookup c' (r.map (fun p => if p.1 = c then (c, v) else p)) = alookup c' r := by
  induction r with
  | nil => simp [alookup]
  | cons p t ih =>
    obtain ⟨k, w⟩ := p
    by_cases hp : k = c
    · have hhead : (if (k, w).1 = c then ((c, v) : String × Value) else (k, w))
        = (c, v) := if_pos hp
      rw [List.map_cons, hhead]
      have hck : ¬ c' = k := by rw [hp]; exact hne
      simp only [alookup, if_neg hne, if_neg hck]
      exact ih
    · have hhead : (if (k, w).1 = c then ((c, v) : String × Value) else (k, w))
        = (k, w) := if_neg hp
      rw [List.map_cons, hhead]
      by_cases hq : c' = k
      · simp only [alookup, if_pos hq]
      · simp only [alookup, if_neg hq]
        exact ih

theorem alookup_append_right (r s : Row) (c : String)
    (h : alookup c r = none) : alookup c (r ++ s) = alookup c s := by
  induction r with
  | nil => simp
  | cons p t ih =>
    obtain ⟨k, w⟩ := p
    by_cases hp : c = k
    · simp [alookup, hp] at h
    · simp only [alookup, if_neg hp] at h
      simp only [List.cons_append, alookup, if_neg hp]
      exact ih h

theorem getCell_setCell_same (r : Row) (c : String) (v : Value) :
    getCell (setCell r c v) c = v := by
  by_cases h : (alookup c r).isSome = true
  · have hs : setCell r c v = r.map (fun p => if p.1 = c then (c, v) else p) := if_pos h
    rw [hs]
    unfold getCell
    rw [alookup_map_replace r c v h]
  · have hs : setCell r c v = r ++ [(c, v)] := if_neg h
    have hn : alookup c r = none := by
      cases hx : alookup c r with
      | none => rfl
      | some w => rw [hx] at h; simp at h
    rw [hs]
    unfold getCell
    rw [alookup_append_right r _ c hn]
    simp [alookup]

theorem alookup_append_left (r s : Row) (c : String) (w : Value)
    (h : alookup c r = some w) : alookup c (r ++ s) = some w := by
  induction r with
  | nil => simp [alookup] at h
  | cons p t ih =>
    obtain ⟨k, u⟩ := p
    by_cases hp : c = k
    · simp only [alookup, if_pos hp] at h
      simp only [List.cons_append, alookup, if_pos hp]
      exact h
    · simp only [alookup, if_neg hp] at h
      simp only [List.cons_append, alookup, if_neg hp]
      exact ih h

theorem getCell_setCell_ne (r : Row) (c c' : String) (v : Value)
    (hne : c' ≠ c) : getCell (setCell r c v) c' = getCell r c' := by
  by_cases h : (alookup c r).isSome = true
  · have hs : setCell r c v = r.map (fun p => if p.1 = c then (c, v) else p) := if_pos h
    rw [hs]
    unfold getCell
    rw [alookup_map_replace_ne r c c' v hne]
  · have hs : setCell r c v = r ++ [(c, v)] := if_neg h
    rw [hs]
    unfold getCell
    cases hx : alookup c' r with
    | none =>
      rw [alookup_append_right r _ c' hx]
      simp [alookup, if_neg hne]
    | some w =>
      rw [alookup_append_left r _ c' w hx]

theorem getCol_assignCol (df : DataFrame) (c : String) (g : Row → Value) :
    (assignCol df c g).rows.map (fun r => getCell r c) = df.rows.map g := by
  unfold assignCol
  simp only [List.map_map]
  apply List.map_congr_left
  intro r _
  exact getCell_setCell_same r c (g r)

theorem mem_cols_assignCol (df : DataFrame) (c : String) (g : Row → Value) :
    c ∈ (assignCol df c g).cols := by
  unfold assignCol
  by_cases h : c ∈ df.cols <;> simp [h]

/-! ## uniqueList lemmas -/

theorem mem_uniqueList {α : Type} [DecidableEq α] {a : α} :
    ∀ {l : List α}, a ∈ uniqueList l ↔ a ∈ l := by
  intro l
  induction l with
  | nil => simp [uniqueList]
  | cons b t ih =>
    simp only [uniqueList, List.mem_cons, List.mem_filter, ih, decide_eq_true_eq]
    constructor
    · rintro (h | ⟨h, _⟩)
      · exact Or.inl h
      · exact Or.inr h
    · rintro (h | h)
      · exact Or.inl h
      · by_cases hab : a = b
        · exact Or.inl hab
        · exact Or.inr ⟨h, hab⟩

theorem nodup_uniqueList {α : Type} [DecidableEq α] :
    ∀ (l : List α), (uniqueList l).Nodup := by
  intro l
  induction l with
  | nil => simp [uniqueList]
  | cons b t ih =>
    simp only [uniqueList, List.nodup_cons]
    refine ⟨?_, ih.filter _⟩
    intro hmem
    have := (List.mem_filter.mp hmem).2
    simp at this

theorem toFinset_uniqueList {α : Type} [DecidableEq α] (l : List α) :
    (uniqueList l).toFinset = l.toFinset := by
  apply Finset.ext
  intro a
  simp [List.mem_toFinset, mem_uniqueList]

theorem length_uniqueList {α : Type} [DecidableEq α] (l : List α) :
    (uniqueList l).length = l.toFinset.card := by
  rw [← toFinset_uniqueList, List.toFinset_card_of_nodup (nodup_uniqueList l)]

/-! ## Sorting lemmas -/

theorem perm_orderedInsert (le : Value → Value → Bool) (a : Value) :
    ∀ (l : List Value), List.Perm (orderedInsert le a l) (a :: l) := by
  intro l
  induction l with
  | nil => simp [orderedInsert]
  | cons b t ih =>
    unfold orderedInsert
    by_cases h : le a b
    · simp [h]
    · simp only [h, if_false]
      exact List.Perm.trans (ih.cons b) (List.Perm.swap a b t)

theorem perm_insertionSortBy (le : Value → Value → Bool) :
    ∀ (l : List Value), List.Perm (insertionSortBy le l) l := by
  intro l
  induction l with
  | nil => simp [insertionSortBy]
  | cons a t ih =>
    exact List.Perm.trans (perm_orderedInsert le a (insertionSortBy le t)) (ih.cons a)

theorem mem_insertionSortBy (le : Value → Value → Bool) (l : List Value) (a : Value) :
    a ∈ insertionSortBy le l ↔ a ∈ l :=
  (perm_insertionSortBy le l).mem_iff

theorem length_insertionSortBy (le : Value → Value → Bool) (l : List Value) :
    (insertionSortBy le l).length = l.length :=
  (perm_insertionSortBy le l).length_eq

theorem nodup_insertionSortBy (le : Value → Value → Bool) (l : List Value)
    (h : l.Nodup) : (insertionSortBy le l).Nodup :=
  ((perm_insertionSortBy le l).nodup_iff).mpr h

theorem pairwise_orderedInsert (le : Value → Value → Bool)
    (htot : ∀ a b, le a b = true ∨ le b a = true)
    (htrans : ∀ a b c, le a b = true → le b c = true → le a c = true)
    (a : Value) :
    ∀ (l : List Value), l.Pairwise (fun x y => le x y = true) →
      (orderedInsert le a l).Pairwise (fun x y => le x y = true) := by
  intro l
  induction l with
  | nil => intro _; simp [orderedInsert]
  | cons b t ih =>
    intro hp
    unfold orderedInsert
    by_cases h : le a b
    · simp only [h, if_true]
      refine List.Pairwise.cons ?_ hp
      intro x hx
      rcases List.mem_cons.mp hx with rfl | hx
      · exact h
      · exact htrans a b x h (List.rel_of_pairwise_cons hp hx)
    · simp only [h, if_false]
      have hba : le b a = true := by
        rcases htot a b with h1 | h1
        · exact absurd h1 h
        · exact h1
      refine List.Pairwise.cons ?_ (ih (List.Pairwise.of_cons hp))
      intro x hx
      rcases List.mem_cons.mp ((perm_orderedInsert le a t).mem_iff.mp hx) with h2 | h2
      · rw [h2]; exact hba
      · exact List.rel_of_pairwise_cons hp h2

theorem pairwise_insertionSortBy (le : Value → Value → Bool)
    (htot : ∀ a b, le a b = true ∨ le b a = true)
    (htrans : ∀ a b c, le a b = true → le b c = true → le a c = true) :
    ∀ (l : List Value), (insertionSortBy le l).Pairwise (fun x y => le x y = true) := by
  intro l
  induction l with
  | nil => simp [insertionSortBy]
  | cons a t ih => exact pairwise_orderedInsert le htot htrans a _ ih

/-! ## Order facts for the sort comparison -/

theorem strLtChars_irrefl : ∀ a : List Char, strLtChars a a = false
  | [] => rfl
  | c :: t => by
    simp only [strLtChars, if_neg (lt_irrefl c)]
    exact strLtChars_irrefl t

theorem strLtChars_trans : ∀ a b c : List Char,
    strLtChars a b = true → strLtChars b c = true → strLtChars a c = true := by
  intro a
  induction a with
  | nil =>
    intro b c h1 h2
    cases b with
    | nil => cases h1
    | cons y bs =>
      cases c with
      | nil => cases h2
      | cons z cs => rfl
  | cons x as ih =>
    intro b c h1 h2
    cases b with
    | nil => cases h1
    | cons y bs =>
      cases c with
      | nil => cases h2
      | cons z cs =>
        simp only [strLtChars] at h1 h2 ⊢
        by_cases hxy : x < y
        · by_cases hyz : y < z
          · rw [if_pos (lt_trans hxy hyz)]
          · by_cases hzy : z < y
            · rw [if_neg hyz, if_pos hzy] at h2
              cases h2
            · have hyzeq : y = z := le_antisymm (not_lt.mp hzy) (not_lt.mp hyz)
              rw [if_pos (hyzeq ▸ hxy)]
        · by_cases hyx : y < x
          · rw [if_neg hxy, if_pos hyx] at h1
            cases h1
          · have hxyeq : x = y := le_antisymm (not_lt.mp hyx) (not_lt.mp hxy)
            subst hxyeq
            rw [if_neg hxy, if_neg hyx] at h1
            by_cases hyz : x < z
            · rw [if_pos hyz]
            · by_cases hzy : z < x
              · rw [if_neg hyz, if_pos hzy] at h2
                cases h2
              · rw [if_neg hyz, if_neg hzy] at h2 ⊢
                exact ih bs cs h1 h2

theorem strLtChars_connex : ∀ a b : List Char,
    strLtChars a b = true ∨ strLtChars b a = true ∨ a = b := by
  intro a
  induction a with
  | nil =>
    intro b
    cases b with
    | nil => exact Or.inr (Or.inr rfl)
    | cons y bs => exact Or.inl rfl
  | cons x as ih =>
    intro b
    cases b with
    | nil => exact Or.inr (Or.inl rfl)
    | cons y bs =>
      simp only [strLtChars]
      by_cases hxy : x < y
      · exact Or.inl (by rw [if_pos hxy])
      · by_cases hyx : y < x
        · exact Or.inr (Or.inl (by rw [if_pos hyx]))
        · have hxyeq : x = y := le_antisymm (not_lt.mp hyx) (not_lt.mp hxy)
          subst hxyeq
          rcases ih bs with h | h | h
          · exact Or.inl (by rw [if_neg hxy, if_neg hxy]; exact h)
          · exact Or.inr (Or.inl (by rw [if_neg hxy, if_neg hxy]; exact h))
          · exact Or.inr (Or.inr (by rw [h]))

theorem strLtChars_asymm (a b : List Char) (h : strLtChars a b = true) :
    strLtChars b a = false := by
  cases hx : strLtChars b a
  · rfl
  · have := strLtChars_trans a b a h hx
    rw [strLtChars_irrefl a] at this
    cases this

theorem strLeb_total (s t : String) : strLeb s t = true ∨ strLeb t s = true := by
  unfold strLeb
  cases hx : strLtChars t.data s.data
  · exact Or.inl rfl
  · right
    rw [strLtChars_asymm _ _ hx]
    rfl

theorem strLeb_trans (s t u : String)
    (h1 : strLeb s t = true) (h2 : strLeb t u = true) : strLeb s u = true := by
  unfold strLeb at h1 h2 ⊢
  cases hus : strLtChars u.data s.data
  · rfl
  · exfalso
    rcases strLtChars_connex s.data t.data with h | h | h
    · have := strLtChars_trans u.data s.data t.data hus h
      rw [this] at h2
      cases h2
    · rw [h] at h1
      cases h1
    · rw [← h] at h2
      rw [hus] at h2
      cases h2

theorem valueLe_total : ∀ a b : Value, valueLe a b = true ∨ valueLe b a = true := by
  intro a b
  cases a <;> cases b <;>
    simp only [valueLe, valueTag, decide_eq_true_eq] <;>
    first
      | exact le_total _ _
      | exact strLeb_total _ _
      | omega
      | simp

theorem valueLe_trans : ∀ a b c : Value,
    valueLe a b = true → valueLe b c = true → valueLe a c = true := by
  intro a b c hab hbc
  cases a <;> cases b <;> cases c <;>
    simp_all only [valueLe, valueTag, decide_eq_true_eq] <;>
    first
      | exact le_trans hab hbc
      | exact strLeb_trans _ _ _ hab hbc
      | omega

/-! ## Counting lemmas for the merge -/

theorem count_keyCol (rows : List Row) (v : Value) :
    (rows.map (fun r => getCell r "customer_id")).count v
      = rows.countP (fun rr => decide (getCell rr "customer_id" = v)) := by
  induction rows with
  | nil => simp
  | cons r t ih =>
    rw [List.map_cons, List.count_cons, List.countP_cons, ih]
    congr 1

theorem merge_inner_rows_length (f c : DataFrame) :
    (merge_inner f c).rows.length =
      ((keyList f).map (fun k => (keyList c).count k)).sum := by
  unfold merge_inner keyList
  rw [List.length_flatMap, List.map_map]
  apply congrArg List.sum
  apply List.map_congr_left
  intro lr _
  simp only [Function.comp_apply]
  rw [List.length_map, ← List.countP_eq_length_filter, count_keyCol]

theorem sum_count_eq_sum_inter (lks rks : List Value) :
    (lks.map (fun k => rks.count k)).sum =
      ∑ k in lks.toFinset ∩ rks.toFinset, lks.count k * rks.count k := by
  rw [Finset.sum_list_map_count]
  rw [← Finset.sum_subset Finset.inter_subset_left ?hzero]
  case hzero =>
    intro x hx hnx
    have hxr : x ∉ rks.toFinset := fun hr => hnx (Finset.mem_inter.mpr ⟨hx, hr⟩)
    have : rks.count x = 0 :=
      List.count_eq_zero.mpr (fun hm => hxr (List.mem_toFinset.mpr hm))
    rw [this, smul_eq_mul, Nat.mul_zero]
  apply Finset.sum_congr rfl
  intro k _
  rw [smul_eq_mul]

/-! ## Mismatch-analysis characterization -/

theorem mem_only_left_ids (lks rks : List Value) (k : Value) :
    k ∈ only_left_ids lks rks ↔ k ∈ lks ∧ k ∉ rks := by
  unfold only_left_ids groupbyKeys
  simp only [List.mem_filter, mem_insertionSortBy, mem_uniqueList, List.mem_append,
    decide_eq_true_eq, srcNunique]
  constructor
  · rintro ⟨⟨_, h1⟩, h2⟩
    refine ⟨h2, fun hr => ?_⟩
    rw [if_pos h2, if_pos hr] at h1
    omega
  · rintro ⟨hl, hr⟩
    refine ⟨⟨Or.inl hl, ?_⟩, hl⟩
    rw [if_pos hl, if_neg hr]

theorem mem_only_right_ids (lks rks : List Value) (k : Value) :
    k ∈ only_right_ids lks rks ↔ k ∈ rks ∧ k ∉ lks := by
  unfold only_right_ids groupbyKeys
  simp only [List.mem_filter, mem_insertionSortBy, mem_uniqueList, List.mem_append,
    decide_eq_true_eq, srcNunique]
  constructor
  · rintro ⟨⟨_, h1⟩, h2⟩
    refine ⟨h2, fun hl => ?_⟩
    rw [if_pos hl, if_pos h2] at h1
    omega
  · rintro ⟨hr, hl⟩
    refine ⟨⟨Or.inr hr, ?_⟩, hr⟩
    rw [if_neg hl, if_pos hr]

theorem nodup_only_left_ids (lks rks : List Value) :
    (only_left_ids lks rks).Nodup :=
  ((nodup_insertionSortBy valueLe _ (nodup_uniqueList _)).filter _).filter _

theorem nodup_only_right_ids (lks rks : List Value) :
    (only_right_ids lks rks).Nodup :=
  ((nodup_insertionSortBy valueLe _ (nodup_uniqueList _)).filter _).filter _

theorem length_only_left_ids (lks rks : List Value) :
    (only_left_ids lks rks).length = (lks.toFinset \ rks.toFinset).card := by
  rw [← List.toFinset_card_of_nodup (nodup_only_left_ids lks rks)]
  congr 1
  apply Finset.ext
  intro k
  simp [List.mem_toFinset, mem_only_left_ids, Finset.mem_sdiff]

theorem length_only_right_ids (lks rks : List Value) :
    (only_right_ids lks rks).length = (rks.toFinset \ lks.toFinset).card := by
  rw [← List.toFinset_card_of_nodup (nodup_only_right_ids lks rks)]
  congr 1
  apply Finset.ext
  intro k
  simp [List.mem_toFinset, mem_only_right_ids, Finset.mem_sdiff]

theorem nuniqueDropna_eq_card (ks : List Value) (h : Value.vNull ∉ ks) :
    nuniqueDropna ks = ks.toFinset.card := by
  unfold nuniqueDropna
  have hf : ks.filter (fun v => decide (v ≠ Value.vNull)) = ks := by
    apply List.filter_eq_self.mpr
    intro a ha
    simp only [decide_eq_true_eq, ne_eq]
    exact fun he => h (he ▸ ha)
  rw [hf, length_uniqueList]

/-! ## Branch lemmas for merge_with_diagnostics -/

theorem merge_with_diagnostics_fst (f c : DataFrame)
    (h : "customer_id" ∈ f.cols ∧ "customer_id" ∈ c.cols) :
    (merge_with_diagnostics f c).1 = merge_inner f c := by
  unfold merge_with_diagnostics
  rw [if_pos h]

theorem merge_with_diagnostics_snd (f c : DataFrame)
    (h : "customer_id" ∈ f.cols ∧ "customer_id" ∈ c.cols) :
    (merge_with_diagnostics f c).2 =
      { missing_join_key := none,
        pre_merge := some
          { feedback_rows := f.rows.length,
            customer_rows := c.rows.length,
            feedback_unique_ids := nuniqueDropna (keyList f),
            customer_unique_ids := nuniqueDropna (keyList c) },
        key_mismatches := some
          { left_only_count := (only_left_ids (keyList f) (keyList c)).length,
            right_only_count := (only_right_ids (keyList f) (keyList c)).length,
            left_only_sample :=
              ((only_left_ids (keyList f) (keyList c)).take 5).map pyStr,
            right_only_sample :=
              ((only_right_ids (keyList f) (keyList c)).take 5).map pyStr },
        post_merge := some
          { merged_rows := (merge_inner f c).rows.length,
            merge_ratio_vs_feedback :=
              ((merge_inner f c).rows.length : ℚ) / max 1 (f.rows.length : ℚ),
            merge_ratio_vs_customer :=
              ((merge_inner f c).rows.length : ℚ) / max 1 (c.rows.length : ℚ) } } := by
  unfold merge_with_diagnostics
  rw [if_pos h]

theorem merge_with_diagnostics_missing (f c : DataFrame)
    (h : ¬ ("customer_id" ∈ f.cols ∧ "customer_id" ∈ c.cols)) :
    merge_with_diagnostics f c =
      (⟨[], []⟩,
       { missing_join_key := some
           { feedback_has_customer_id := decide ("customer_id" ∈ f.cols),
             customer_has_customer_id := decide ("customer_id" ∈ c.cols) },
         pre_merge := none,
         key_mismatches := none,
         post_merge := none }) := by
  unfold merge_with_diagnostics
  rw [if_neg h]

theorem alookup_rename (r : Row) (old new : String)
    (hnew : new ∉ r.map Prod.fst) :
    alookup new (r.map (fun p => if p.1 = old then (new, p.2) else p)) = alookup old r := by
  induction r with
  | nil => simp [alookup]
  | cons p t ih =>
    obtain ⟨k, w⟩ := p
    simp only [List.map_cons, List.mem_cons] at hnew
    push_neg at hnew
    obtain ⟨hnk, hnt⟩ := hnew
    by_cases hp : k = old
    · have hhead : (if (k, w).1 = old then (new, (k, w).2) else (k, w)) = (new, w) :=
        if_pos hp
      rw [List.map_cons, hhead]
      simp [alookup, hp.symm]
    · have hhead : (if (k, w).1 = old then (new, (k, w).2) else (k, w)) = (k, w) :=
        if_neg hp
      rw [List.map_cons, hhead]
      have h2 : ¬ old = k := fun hh => hp hh.symm
      simp only [alookup, if_neg hnk, if_neg h2]
      exact ih hnt

theorem getCell_rename (r : Row) (old new : String)
    (hnew : new ∉ r.map Prod.fst) :
    getCell (r.map (fun p => if p.1 = old then (new, p.2) else p)) new = getCell r old := by
  unfold getCell
  rw [alookup_rename r old new hnew]

/-! ## Claim theorems -/

/-- C5: whenever either input frame lacks the `customer_id` column,
`merge_with_diagnostics` does not fail: it returns an empty frame plus
a diagnostics record whose only populated block is `missing_join_key`,
reporting per side whether that side has the column, with no join or
mismatch statistics computed. -/
theorem merge_missing_key_short_circuits (f c : DataFrame)
    (h : "customer_id" ∉ f.cols ∨ "customer_id" ∉ c.cols) :
    merge_with_diagnostics f c =
      (⟨[], []⟩,
       { missing_join_key := some
           { feedback_has_customer_id := decide ("customer_id" ∈ f.cols),
             customer_has_customer_id := decide ("customer_id" ∈ c.cols) },
         pre_merge := none,
         key_mismatches := none,
         post_merge := none }) :=
  merge_with_diagnostics_missing f c (by tauto)

/-- Witness for C5 at a concrete pair where the customer side lacks the
key column. -/
theorem merge_missing_key_short_circuits_witness :
    ("customer_id" ∉ (⟨["customer_id"], [[("customer_id", Value.vStr "1")]]⟩ : DataFrame).cols ∨
      "customer_id" ∉ (⟨["name"], [[("name", Value.vStr "Alice")]]⟩ : DataFrame).cols) ∧
    merge_with_diagnostics
        ⟨["customer_id"], [[("customer_id", Value.vStr "1")]]⟩
        ⟨["name"], [[("name", Value.vStr "Alice")]]⟩ =
      (⟨[], []⟩,
       { missing_join_key := some
           { feedback_has_customer_id := true, customer_has_customer_id := false },
         pre_merge := none, key_mismatches := none, post_merge := none }) :=
  ⟨by decide,
   (merge_missing_key_short_circuits
      ⟨["customer_id"], [[("customer_id", Value.vStr "1")]]⟩
      ⟨["name"], [[("name", Value.vStr "Alice")]]⟩ (by decide)).trans (by decide)⟩

/-- C9: with `customer_id` on both sides — zero-row inputs included —
the recorded match ratios are the merged row count divided by
`max 1 (row count)` of the respective side, and both divisors are
strictly positive, so no division by zero occurs. -/
theorem post_merge_ratios_guarded (f c : DataFrame)
    (hf : "customer_id" ∈ f.cols) (hc : "customer_id" ∈ c.cols) :
    ∃ pm, (merge_with_diagnostics f c).2.post_merge = some pm ∧
      pm.merge_ratio_vs_feedback = (pm.merged_rows : ℚ) / max 1 (f.rows.length : ℚ) ∧
      pm.merge_ratio_vs_customer = (pm.merged_rows : ℚ) / max 1 (c.rows.length : ℚ) ∧
      (0 : ℚ) < max 1 (f.rows.length : ℚ) ∧ (0 : ℚ) < max 1 (c.rows.length : ℚ) := by
  rw [merge_with_diagnostics_snd f c ⟨hf, hc⟩]
  refine ⟨_, rfl, rfl, rfl, ?_, ?_⟩
  · exact lt_of_lt_of_le zero_lt_one (le_max_left _ _)
  · exact lt_of_lt_of_le zero_lt_one (le_max_left _ _)

/-- Witness for C9 at a pair whose customer side has zero rows. -/
theorem post_merge_ratios_guarded_witness :
    ("customer_id" ∈ (⟨["customer_id"], [[("customer_id", Value.vStr "1")]]⟩ : DataFrame).cols ∧
      "customer_id" ∈ (⟨["customer_id"], ([] : List Row)⟩ : DataFrame).cols) ∧
    ∃ pm, (merge_with_diagnostics
        ⟨["customer_id"], [[("customer_id", Value.vStr "1")]]⟩
        ⟨["customer_id"], ([] : List Row)⟩).2.post_merge = some pm ∧
      pm.merge_ratio_vs_feedback = (pm.merged_rows : ℚ) / max 1 ((1 : ℕ) : ℚ) ∧
      pm.merge_ratio_vs_customer = (pm.merged_rows : ℚ) / max 1 ((0 : ℕ) : ℚ) ∧
      (0 : ℚ) < max 1 ((1 : ℕ) : ℚ) ∧ (0 : ℚ) < max 1 ((0 : ℕ) : ℚ) :=
  ⟨⟨by decide, by decide⟩,
   post_merge_ratios_guarded
     ⟨["customer_id"], [[("customer_id", Value.vStr "1")]]⟩
     ⟨["customer_id"], ([] : List Row)⟩ (by decide) (by decide)⟩

/-- C6: the shape validator is total and classified: every outcome is
either a success carrying a list all of whose elements are mappings
(vacuously so for an empty list), or a failure tagged with exactly one
of the four reasons; an empty list under the key is accepted, and a
list containing a non-mapping element is rejected as
`list_elements_not_dict`. -/
theorem expect_list_under_key_classified (o : Json) (key : String) :
    (((expect_list_under_key o key).1 = true ∧
        (expect_list_under_key o key).2.2 = none ∧
        ∃ xs, (expect_list_under_key o key).2.1 = some xs ∧
          ∀ x ∈ xs, x.isDict = true) ∨
      ((expect_list_under_key o key).1 = false ∧
        (expect_list_under_key o key).2.1 = none ∧
        ((expect_list_under_key o key).2.2 = some "top_level_not_dict" ∨
         (expect_list_under_key o key).2.2 = some ("missing_key:" ++ key) ∨
         (expect_list_under_key o key).2.2 = some ("value_not_list:" ++ key) ∨
         (expect_list_under_key o key).2.2 = some ("list_elements_not_dict:" ++ key)))) ∧
    (∀ kvs, alookup key kvs = some (Json.arr []) →
      expect_list_under_key (Json.obj kvs) key = (true, some [], none)) ∧
    (∀ kvs xs, alookup key kvs = some (Json.arr xs) →
      (∃ x ∈ xs, x.isDict = false) →
      expect_list_under_key (Json.obj kvs) key =
        (false, none, some ("list_elements_not_dict:" ++ key))) := by
  refine ⟨?_, ?_, ?_⟩
  · cases o with
    | obj kvs =>
      cases hl : alookup key kvs with
      | none =>
        right
        simp [expect_list_under_key, hl]
      | some v =>
        cases v with
        | arr xs =>
          by_cases hb : (!xs.isEmpty && !(xs.all Json.isDict)) = true
          · right
            simp [expect_list_under_key, hl, if_pos hb]
          · left
            have hres : expect_list_under_key (Json.obj kvs) key = (true, some xs, none) := by
              simp only [expect_list_under_key, hl, if_neg hb]
            rw [hres]
            refine ⟨rfl, rfl, xs, rfl, ?_⟩
            intro x hx
            rcases not_and_or.mp (fun hc => hb (Bool.and_eq_true_iff.mpr hc)) with h1 | h2
            · have hxe : xs.isEmpty = true := by
                cases hxe : xs.isEmpty
                · exact absurd (by simp [hxe]) h1
                · rfl
              rw [List.isEmpty_iff] at hxe
              subst hxe
              cases hx
            · have hxa : xs.all Json.isDict = true := by
                cases hxa : xs.all Json.isDict
                · exact absurd (by simp [hxa]) h2
                · rfl
              exact List.all_eq_true.mp hxa x hx
        | null =>
          right
          simp [expect_list_under_key, hl]
        | bool b =>
          right
          simp [expect_list_under_key, hl]
        | num q =>
          right
          simp [expect_list_under_key, hl]
        | str t =>
          right
          simp [expect_list_under_key, hl]
        | obj kvs2 =>
          right
          simp [expect_list_under_key, hl]
    | null =>
      right
      simp [expect_list_under_key]
    | bool b =>
      right
      simp [expect_list_under_key]
    | num q =>
      right
      simp [expect_list_under_key]
    | str t =>
      right
      simp [expect_list_under_key]
    | arr xs =>
      right
      simp [expect_list_under_key]
  · intro kvs hl
    simp only [expect_list_under_key, hl]
    rfl
  · intro kvs xs hl hx
    simp only [expect_list_under_key, hl]
    have hne : xs.isEmpty = false := by
      rcases hx with ⟨x, hmem, _⟩
      cases xs
      · cases hmem
      · rfl
    have hall : xs.all Json.isDict = false := by
      rcases hx with ⟨x, hmem, hxd⟩
      cases hxa : xs.all Json.isDict
      · rfl
      · rw [List.all_eq_true.mp hxa x hmem] at hxd
        cases hxd
    rw [if_pos (by rw [hne, hall]; rfl)]

/-- Witness for C6: an empty list under the key is accepted, and a
list with one non-mapping element is rejected as
`list_elements_not_dict`. -/
theorem expect_list_under_key_classified_witness :
    expect_list_under_key (Json.obj [("feedback", Json.arr [])]) "feedback" =
      (true, some [], none) ∧
    expect_list_under_key (Json.obj [("feedback", Json.arr [Json.num 1])]) "feedback" =
      (false, none, some ("list_elements_not_dict:" ++ "feedback")) :=
  ⟨(expect_list_under_key_classified (Json.obj [("feedback", Json.arr [])]) "feedback").2.1
      [("feedback", Json.arr [])] rfl,
   (expect_list_under_key_classified (Json.obj [("feedback", Json.arr [Json.num 1])])
        "feedback").2.2 [("feedback", Json.arr [Json.num 1])] [Json.num 1] rfl
      ⟨Json.num 1, List.mem_singleton.mpr rfl, rfl⟩⟩

/-- C1: with `customer_id` on both sides, the joined frame returned by
`merge_with_diagnostics` pairs every left row with every right row
sharing its key (many-to-many), so its row count is the sum, over each
distinct key present on both sides, of (left occurrences of the key)
times (right occurrences of the key). -/
theorem merged_row_count_is_sum_of_products (f c : DataFrame)
    (hf : "customer_id" ∈ f.cols) (hc : "customer_id" ∈ c.cols) :
    (merge_with_diagnostics f c).1.rows.length =
      ∑ k in (keyList f).toFinset ∩ (keyList c).toFinset,
        (keyList f).count k * (keyList c).count k := by
  rw [merge_with_diagnostics_fst f c ⟨hf, hc⟩, merge_inner_rows_length,
    sum_count_eq_sum_inter]

/-- Witness for C1 at a concrete pair with duplicated keys on both
sides: the joined row count evaluates to 2·2 + 1·1 = 5. -/
theorem merged_row_count_is_sum_of_products_witness :
    ("customer_id" ∈ (⟨["customer_id"],
        [[("customer_id", Value.vStr "1")], [("customer_id", Value.vStr "1")],
         [("customer_id", Value.vStr "2")], [("customer_id", Value.vStr "7")]]⟩ : DataFrame).cols ∧
      "customer_id" ∈ (⟨["customer_id"],
        [[("customer_id", Value.vStr "1")], [("customer_id", Value.vStr "1")],
         [("customer_id", Value.vStr "2")]]⟩ : DataFrame).cols) ∧
    (merge_with_diagnostics
        ⟨["customer_id"],
         [[("customer_id", Value.vStr "1")], [("customer_id", Value.vStr "1")],
          [("customer_id", Value.vStr "2")], [("customer_id", Value.vStr "7")]]⟩
        ⟨["customer_id"],
         [[("customer_id", Value.vStr "1")], [("customer_id", Value.vStr "1")],
          [("customer_id", Value.vStr "2")]]⟩).1.rows.length = 5 :=
  ⟨⟨by decide, by decide⟩,
   (merged_row_count_is_sum_of_products
      ⟨["customer_id"],
       [[("customer_id", Value.vStr "1")], [("customer_id", Value.vStr "1")],
        [("customer_id", Value.vStr "2")], [("customer_id", Value.vStr "7")]]⟩
      ⟨["customer_id"],
       [[("customer_id", Value.vStr "1")], [("customer_id", Value.vStr "1")],
        [("customer_id", Value.vStr "2")]]⟩ (by decide) (by decide)).trans (by decide)⟩

/-- C2: for a customer frame exposing an identifier column
(`customer_id`, else `customerId`), `normalize_customer_df` maps every
identifier cell to its string form with every literal, case-sensitive
occurrence of the substring `"cid"` removed — not only a leading
prefix: `"cid123"` gives `"123"`, `"cid123cid"` gives `"123"`,
`"cid1cid"` gives `"1"`, and a middle occurrence as in `"9cid87"` is
removed as well. -/
theorem normalize_customer_removes_every_cid (df : DataFrame)
    (hwf : df.WF)
    (hid : "customer_id" ∈ df.cols ∨ "customerId" ∈ df.cols) :
    keyList (normalize_customer_df df) =
      df.rows.map (fun r => Value.vStr (removeCid (pyStr
        (getCell r (if "customer_id" ∈ df.cols then "customer_id" else "customerId"))))) ∧
    removeCid "cid123" = "123" ∧
    removeCid "cid123cid" = "123" ∧
    removeCid "cid1cid" = "1" ∧
    removeCid "9cid87" = "987" := by
  refine ⟨?_, by decide, by decide, by decide, by decide⟩
  unfold normalize_customer_df
  by_cases h1 : "customer_id" ∈ df.cols
  · have hcond : ¬ ("customer_id" ∉ df.cols ∧ "customerId" ∈ df.cols) := fun hc => hc.1 h1
    rw [if_neg hcond]
    unfold normalize_customer_clean
    rw [if_neg (not_not_intro h1)]
    unfold keyList
    rw [getCol_assignCol]
    simp only [if_pos h1]
  · have hcid : "customerId" ∈ df.cols := hid.resolve_left h1
    rw [if_pos ⟨h1, hcid⟩]
    have hmem : "customer_id" ∈ (renameCol df "customerId" "customer_id").cols := by
      unfold renameCol
      exact List.mem_map.mpr ⟨"customerId", hcid, if_pos rfl⟩
    unfold normalize_customer_clean
    rw [if_neg (not_not_intro hmem)]
    unfold keyList
    rw [getCol_assignCol]
    unfold renameCol
    rw [List.map_map]
    apply List.map_congr_left
    intro r hr
    simp only [Function.comp_apply, if_neg h1]
    rw [getCell_rename r "customerId" "customer_id" (by rw [hwf.2 r hr]; exact h1)]

/-- Witness for C2 on a one-row customer frame whose `customerId` is
`"cid123"`: the normalized key column is `["123"]`. -/
theorem normalize_customer_removes_every_cid_witness :
    (⟨["customerId"], [[("customerId", Value.vStr "cid123")]]⟩ : DataFrame).WF ∧
    ("customer_id" ∈ (⟨["customerId"], [[("customerId", Value.vStr "cid123")]]⟩ : DataFrame).cols ∨
      "customerId" ∈ (⟨["customerId"], [[("customerId", Value.vStr "cid123")]]⟩ : DataFrame).cols) ∧
    keyList (normalize_customer_df
        ⟨["customerId"], [[("customerId", Value.vStr "cid123")]]⟩) = [Value.vStr "123"] :=
  ⟨by decide, by decide,
   ((normalize_customer_removes_every_cid
      ⟨["customerId"], [[("customerId", Value.vStr "cid123")]]⟩
      (by decide) (by decide)).1).trans (by decide)⟩

theorem rows_assignCol (df : DataFrame) (c : String) (g : Row → Value) :
    (assignCol df c g).rows = df.rows.map (fun r => setCell r c (g r)) := rfl

theorem cellNum_optValue (o : Option ℚ) : cellNum (optValue o) = o := by
  cases o <;> rfl

theorem getCell_setCell_q2_at_q1 (r : Row) (v : Value) :
    getCell (setCell r "survey_q2" v) "survey_q1" = getCell r "survey_q1" :=
  getCell_setCell_ne r _ _ v (by decide)

theorem getCell_setCell_q1_at_q2 (r : Row) (v : Value) :
    getCell (setCell r "survey_q1" v) "survey_q2" = getCell r "survey_q2" :=
  getCell_setCell_ne r _ _ v (by decide)

/-- C8: when both survey columns are present, `derive_fields` coerces
each to numeric (unparseable cells become missing rather than raising)
and appends `avg_survey_score`, the row-wise mean that skips missing
values: both present gives their half-sum, exactly one present gives
that value, both missing gives missing.  When either column is absent
the frame is returned unchanged. -/
theorem derive_fields_avg_survey (df : DataFrame) :
    (("survey_q1" ∈ df.cols ∧ "survey_q2" ∈ df.cols) →
      "avg_survey_score" ∈ (derive_fields df).cols ∧
      (derive_fields df).rows.map (fun r => getCell r "avg_survey_score") =
        df.rows.map (fun r =>
          match to_numeric_coerce (getCell r "survey_q1"),
                to_numeric_coerce (getCell r "survey_q2") with
          | some x, some y => Value.vNum ((x + y) / 2)
          | some x, none => Value.vNum x
          | none, some y => Value.vNum y
          | none, none => Value.vNull)) ∧
    (¬ ("survey_q1" ∈ df.cols ∧ "survey_q2" ∈ df.cols) → derive_fields df = df) := by
  constructor
  · intro hsub
    unfold derive_fields
    rw [if_pos hsub]
    refine ⟨mem_cols_assignCol _ _ _, ?_⟩
    rw [getCol_assignCol, rows_assignCol, rows_assignCol, List.map_map, List.map_map]
    apply List.map_congr_left
    intro r _
    simp only [Function.comp_apply, getCell_setCell_same, getCell_setCell_q2_at_q1,
      getCell_setCell_q1_at_q2, cellNum_optValue]
    rcases to_numeric_coerce (getCell r "survey_q1") with _ | x <;>
      rcases to_numeric_coerce (getCell r "survey_q2") with _ | y <;> rfl
  · intro hn
    unfold derive_fields
    rw [if_neg hn]

/-- Witness for C8: survey values 5 and 3 derive the mean 4, and a
frame missing the survey columns comes back unchanged. -/
theorem derive_fields_avg_survey_witness :
    ("survey_q1" ∈ (⟨["survey_q1", "survey_q2"],
        [[("survey_q1", Value.vInt 5), ("survey_q2", Value.vInt 3)]]⟩ : DataFrame).cols ∧
      "survey_q2" ∈ (⟨["survey_q1", "survey_q2"],
        [[("survey_q1", Value.vInt 5), ("survey_q2", Value.vInt 3)]]⟩ : DataFrame).cols) ∧
    (derive_fields ⟨["survey_q1", "survey_q2"],
        [[("survey_q1", Value.vInt 5), ("survey_q2", Value.vInt 3)]]⟩).rows.map
      (fun r => getCell r "avg_survey_score") = [Value.vNum 4] ∧
    derive_fields (⟨["name"], [[("name", Value.vStr "Alice")]]⟩ : DataFrame) =
      ⟨["name"], [[("name", Value.vStr "Alice")]]⟩ :=
  ⟨by decide,
   (((derive_fields_avg_survey ⟨["survey_q1", "survey_q2"],
        [[("survey_q1", Value.vInt 5), ("survey_q2", Value.vInt 3)]]⟩).1
      (by decide)).2).trans (by
        simp [getCell, alookup, to_numeric_coerce]
        norm_num),
   (derive_fields_avg_survey ⟨["name"], [[("name", Value.vStr "Alice")]]⟩).2 (by decide)⟩

/-- C10: the `"cid"` removal applies only to the customer side:
`normalize_feedback_df` is the identity or the bare `id` to
`customer_id` rename and never alters cell values; consequently raw
identifier `"cid123"` on both sides yields canonical keys `"cid123"`
(feedback) versus `"123"` (customer), and the inner join of the
normalized frames produces no row. -/
theorem feedback_side_keeps_cid :
    (∀ df : DataFrame,
      (normalize_feedback_df df).rows.map (fun r => r.map Prod.snd) =
        df.rows.map (fun r => r.map Prod.snd)) ∧
    (∀ df : DataFrame, normalize_feedback_df df = df ∨
      normalize_feedback_df df = renameCol df "id" "customer_id") ∧
    keyList ((standardize_join_keys
        (normalize_feedback_df (dfOfRecords [Json.obj [("id", Json.str "cid123")]]))
        (normalize_customer_df (dfOfRecords [Json.obj [("customerId", Json.str "cid123")]]))).1)
      = [Value.vStr "cid123"] ∧
    keyList ((standardize_join_keys
        (normalize_feedback_df (dfOfRecords [Json.obj [("id", Json.str "cid123")]]))
        (normalize_customer_df (dfOfRecords [Json.obj [("customerId", Json.str "cid123")]]))).2)
      = [Value.vStr "123"] ∧
    (merge_with_diagnostics
        ((standardize_join_keys
          (normalize_feedback_df (dfOfRecords [Json.obj [("id", Json.str "cid123")]]))
          (normalize_customer_df (dfOfRecords [Json.obj [("customerId", Json.str "cid123")]]))).1)
        ((standardize_join_keys
          (normalize_feedback_df (dfOfRecords [Json.obj [("id", Json.str "cid123")]]))
          (normalize_customer_df (dfOfRecords [Json.obj [("customerId", Json.str "cid123")]]))).2)).1.rows
      = [] := by
  refine ⟨?_, ?_, by decide, by decide, by decide⟩
  · intro df
    unfold normalize_feedback_df
    by_cases h1 : "customer_id" ∈ df.cols
    · rw [if_pos h1]
    · rw [if_neg h1]
      by_cases h2 : "id" ∈ df.cols
      · rw [if_pos h2]
        unfold renameCol
        simp only [List.map_map]
        apply List.map_congr_left
        intro r _
        simp only [Function.comp_apply, List.map_map]
        apply List.map_congr_left
        intro p _
        by_cases hp : p.1 = "id"
        · simp [hp]
        · simp [hp]
      · rw [if_neg h2]
  · intro df
    unfold normalize_feedback_df
    by_cases h1 : "customer_id" ∈ df.cols
    · rw [if_pos h1]
      exact Or.inl rfl
    · rw [if_neg h1]
      by_cases h2 : "id" ∈ df.cols
      · rw [if_pos h2]
        exact Or.inr rfl
      · rw [if_neg h2]
        exact Or.inl rfl

/-- C4 counterexample: with one missing (null) key on the left and the
key "1" on the right, both sides expose `customer_id`; the mismatch
analysis runs its groupby with `dropna=False` and so counts the null
key as left-only, while `feedback_unique_ids` comes from `nunique`
with `dropna=True` and excludes it, so left_only_count plus the number
of keys on both sides is 1 + 0 ≠ 0 = feedback_unique_ids. -/
theorem mismatch_counts_null_key_discrepancy :
    ("customer_id" ∈ (⟨["customer_id"], [[("customer_id", Value.vNull)]]⟩ : DataFrame).cols ∧
      "customer_id" ∈ (⟨["customer_id"], [[("customer_id", Value.vStr "1")]]⟩ : DataFrame).cols) ∧
    (merge_with_diagnostics
        ⟨["customer_id"], [[("customer_id", Value.vNull)]]⟩
        ⟨["customer_id"], [[("customer_id", Value.vStr "1")]]⟩).2.pre_merge =
      some { feedback_rows := 1, customer_rows := 1,
             feedback_unique_ids := 0, customer_unique_ids := 1 } ∧
    (merge_with_diagnostics
        ⟨["customer_id"], [[("customer_id", Value.vNull)]]⟩
        ⟨["customer_id"], [[("customer_id", Value.vStr "1")]]⟩).2.key_mismatches =
      some { left_only_count := 1, right_only_count := 1,
             left_only_sample := ["nan"], right_only_sample := ["1"] } ∧
    1 + ((keyList (⟨["customer_id"], [[("customer_id", Value.vNull)]]⟩ : DataFrame)).toFinset ∩
          (keyList (⟨["customer_id"], [[("customer_id", Value.vStr "1")]]⟩ : DataFrame)).toFinset).card ≠ 0 := by
  refine ⟨⟨by decide, by decide⟩, by decide, by decide, by decide⟩

/-- C4 (amended): with `customer_id` on both sides and no null key on
either side, left_only_count plus the number of distinct keys present
on both sides equals the left side's distinct key count
(`feedback_unique_ids`), symmetrically for the right, and
left_only_count + right_only_count is the size of the symmetric
difference of the two key sets.  (With a null key on exactly one side
the first two identities fail, because the unique-id counts drop
nulls while the mismatch analysis keeps them.) -/
theorem mismatch_counts_partition_keys (f c : DataFrame)
    (hf : "customer_id" ∈ f.cols) (hc : "customer_id" ∈ c.cols)
    (hlnull : Value.vNull ∉ keyList f) (hrnull : Value.vNull ∉ keyList c) :
    ∃ pm km, (merge_with_diagnostics f c).2.pre_merge = some pm ∧
      (merge_with_diagnostics f c).2.key_mismatches = some km ∧
      km.left_only_count +
          ((keyList f).toFinset ∩ (keyList c).toFinset).card = pm.feedback_unique_ids ∧
      km.right_only_count +
          ((keyList f).toFinset ∩ (keyList c).toFinset).card = pm.customer_unique_ids ∧
      km.left_only_count + km.right_only_count =
        (((keyList f).toFinset \ (keyList c).toFinset) ∪
          ((keyList c).toFinset \ (keyList f).toFinset)).card := by
  rw [merge_with_diagnostics_snd f c ⟨hf, hc⟩]
  refine ⟨_, _, rfl, rfl, ?_, ?_, ?_⟩
  · show (only_left_ids (keyList f) (keyList c)).length + _ = nuniqueDropna (keyList f)
    rw [length_only_left_ids, nuniqueDropna_eq_card _ hlnull,
      Finset.card_sdiff_add_card_inter]
  · show (only_right_ids (keyList f) (keyList c)).length + _ = nuniqueDropna (keyList c)
    rw [length_only_right_ids, Finset.inter_comm, nuniqueDropna_eq_card _ hrnull,
      Finset.card_sdiff_add_card_inter]
  · show (only_left_ids (keyList f) (keyList c)).length +
        (only_right_ids (keyList f) (keyList c)).length = _
    rw [length_only_left_ids, length_only_right_ids,
      Finset.card_disjoint_union disjoint_sdiff_sdiff]

/-- Witness for the amended C4 at the repository-test key sets
feedback {1, 2} versus customer {2, 3}. -/
theorem mismatch_counts_partition_keys_witness :
    ("customer_id" ∈ (⟨["customer_id"],
        [[("customer_id", Value.vStr "1")], [("customer_id", Value.vStr "2")]]⟩ : DataFrame).cols ∧
      "customer_id" ∈ (⟨["customer_id"],
        [[("customer_id", Value.vStr "2")], [("customer_id", Value.vStr "3")]]⟩ : DataFrame).cols ∧
      Value.vNull ∉ keyList (⟨["customer_id"],
        [[("customer_id", Value.vStr "1")], [("customer_id", Value.vStr "2")]]⟩ : DataFrame) ∧
      Value.vNull ∉ keyList (⟨["customer_id"],
        [[("customer_id", Value.vStr "2")], [("customer_id", Value.vStr "3")]]⟩ : DataFrame)) ∧
    ∃ pm km, (merge_with_diagnostics
        ⟨["customer_id"], [[("customer_id", Value.vStr "1")], [("customer_id", Value.vStr "2")]]⟩
        ⟨["customer_id"], [[("customer_id", Value.vStr "2")], [("customer_id", Value.vStr "3")]]⟩).2.pre_merge = some pm ∧
      (merge_with_diagnostics
        ⟨["customer_id"], [[("customer_id", Value.vStr "1")], [("customer_id", Value.vStr "2")]]⟩
        ⟨["customer_id"], [[("customer_id", Value.vStr "2")], [("customer_id", Value.vStr "3")]]⟩).2.key_mismatches = some km ∧
      km.left_only_count +
          ((keyList (⟨["customer_id"],
            [[("customer_id", Value.vStr "1")], [("customer_id", Value.vStr "2")]]⟩ : DataFrame)).toFinset ∩
           (keyList (⟨["customer_id"],
            [[("customer_id", Value.vStr "2")], [("customer_id", Value.vStr "3")]]⟩ : DataFrame)).toFinset).card = pm.feedback_unique_ids ∧
      km.right_only_count +
          ((keyList (⟨["customer_id"],
            [[("customer_id", Value.vStr "1")], [("customer_id", Value.vStr "2")]]⟩ : DataFrame)).toFinset ∩
           (keyList (⟨["customer_id"],
            [[("customer_id", Value.vStr "2")], [("customer_id", Value.vStr "3")]]⟩ : DataFrame)).toFinset).card = pm.customer_unique_ids ∧
      km.left_only_count + km.right_only_count =
        (((keyList (⟨["customer_id"],
            [[("customer_id", Value.vStr "1")], [("customer_id", Value.vStr "2")]]⟩ : DataFrame)).toFinset \
          (keyList (⟨["customer_id"],
            [[("customer_id", Value.vStr "2")], [("customer_id", Value.vStr "3")]]⟩ : DataFrame)).toFinset) ∪
         ((keyList (⟨["customer_id"],
            [[("customer_id", Value.vStr "2")], [("customer_id", Value.vStr "3")]]⟩ : DataFrame)).toFinset \
          (keyList (⟨["customer_id"],
            [[("customer_id", Value.vStr "1")], [("customer_id", Value.vStr "2")]]⟩ : DataFrame)).toFinset)).card :=
  ⟨⟨by decide, by decide, by decide, by decide⟩,
   mismatch_counts_partition_keys
     ⟨["customer_id"], [[("customer_id", Value.vStr "1")], [("customer_id", Value.vStr "2")]]⟩
     ⟨["customer_id"], [[("customer_id", Value.vStr "2")], [("customer_id", Value.vStr "3")]]⟩
     (by decide) (by decide) (by decide) (by decide)⟩

/-- Whether a cell is a string (key columns are all-string after
`standardize_join_keys`). -/
def Value.isStr : Value → Bool
  | .vStr _ => true
  | _ => false

/-- The sample order claimed by the spec: the distinct left-only keys
in order of their first occurrence in the left input, truncated to 5
and converted to strings. -/
def left_only_sample_first_occurrence (lks rks : List Value) : List String :=
  (((uniqueList lks).filter (fun k => decide (k ∉ rks))).take 5).map pyStr

/-- C3 counterexample: with left keys ["2", "1"] and right key ["9"],
the recorded left-only sample is ["1", "2"] — the ascending sorted
order produced by the groupby index — whereas the order of first
occurrence in the input would be ["2", "1"]. -/
theorem left_only_sample_not_first_occurrence :
    ("customer_id" ∈ (⟨["customer_id"],
        [[("customer_id", Value.vStr "2")], [("customer_id", Value.vStr "1")]]⟩ : DataFrame).cols ∧
      "customer_id" ∈ (⟨["customer_id"],
        [[("customer_id", Value.vStr "9")]]⟩ : DataFrame).cols) ∧
    (merge_with_diagnostics
        ⟨["customer_id"], [[("customer_id", Value.vStr "2")], [("customer_id", Value.vStr "1")]]⟩
        ⟨["customer_id"], [[("customer_id", Value.vStr "9")]]⟩).2.key_mismatches =
      some { left_only_count := 2, right_only_count := 1,
             left_only_sample := ["1", "2"], right_only_sample := ["9"] } ∧
    left_only_sample_first_occurrence
        (keyList (⟨["customer_id"],
          [[("customer_id", Value.vStr "2")], [("customer_id", Value.vStr "1")]]⟩ : DataFrame))
        (keyList (⟨["customer_id"],
          [[("customer_id", Value.vStr "9")]]⟩ : DataFrame)) = ["2", "1"] ∧
    (["1", "2"] : List String) ≠ ["2", "1"] := by
  refine ⟨⟨by decide, by decide⟩, by decide, by decide, by decide⟩

/-- C3 (amended): with `customer_id` on both sides and string-typed
keys, each recorded sample holds at most 5 keys, converted to strings,
in a deterministic order — the ascending lexicographic order of the
keys (the sorted groupby index), not the order of first occurrence:
every sampled string comes from a key present on exactly that side,
and when a side has at most 5 mismatched keys, every one of them
appears in the sample. -/
theorem mismatch_samples_sorted (f c : DataFrame)
    (hf : "customer_id" ∈ f.cols) (hc : "customer_id" ∈ c.cols)
    (hstrL : ∀ k ∈ keyList f, k.isStr = true)
    (hstrR : ∀ k ∈ keyList c, k.isStr = true) :
    ∃ km, (merge_with_diagnostics f c).2.key_mismatches = some km ∧
      km.left_only_sample.length ≤ 5 ∧
      km.right_only_sample.length ≤ 5 ∧
      km.left_only_sample.Pairwise (fun a b => strLeb a b = true) ∧
      km.right_only_sample.Pairwise (fun a b => strLeb a b = true) ∧
      (∀ t ∈ km.left_only_sample, ∃ k, k ∈ keyList f ∧ k ∉ keyList c ∧ pyStr k = t) ∧
      (∀ t ∈ km.right_only_sample, ∃ k, k ∈ keyList c ∧ k ∉ keyList f ∧ pyStr k = t) ∧
      (km.left_only_count ≤ 5 →
        ∀ k, k ∈ keyList f → k ∉ keyList c → pyStr k ∈ km.left_only_sample) ∧
      (km.right_only_count ≤ 5 →
        ∀ k, k ∈ keyList c → k ∉ keyList f → pyStr k ∈ km.right_only_sample) := by
  rw [merge_with_diagnostics_snd f c ⟨hf, hc⟩]
  have hpwL : (only_left_ids (keyList f) (keyList c)).Pairwise
      (fun x y => valueLe x y = true) :=
    ((pairwise_insertionSortBy valueLe valueLe_total valueLe_trans _).sublist
        (List.filter_sublist _)).sublist (List.filter_sublist _)
  have hpwR : (only_right_ids (keyList f) (keyList c)).Pairwise
      (fun x y => valueLe x y = true) :=
    ((pairwise_insertionSortBy valueLe valueLe_total valueLe_trans _).sublist
        (List.filter_sublist _)).sublist (List.filter_sublist _)
  refine ⟨_, rfl, ?_, ?_, ?_, ?_, ?_, ?_, ?_, ?_⟩
  · simp only [List.length_map, List.length_take]
    exact Nat.min_le_left _ _
  · simp only [List.length_map, List.length_take]
    exact Nat.min_le_left _ _
  · refine List.pairwise_map.mpr (List.Pairwise.imp_of_mem ?_
      (hpwL.sublist (List.take_sublist _ _)))
    intro a b ha hb hab
    have haL := (mem_only_left_ids _ _ a).mp (List.mem_of_mem_take ha)
    have hbL := (mem_only_left_ids _ _ b).mp (List.mem_of_mem_take hb)
    have has := hstrL a haL.1
    have hbs := hstrL b hbL.1
    cases a <;> simp [Value.isStr] at has
    cases b <;> simp [Value.isStr] at hbs
    simpa [valueLe, pyStr] using hab
  · refine List.pairwise_map.mpr (List.Pairwise.imp_of_mem ?_
      (hpwR.sublist (List.take_sublist _ _)))
    intro a b ha hb hab
    have haR := (mem_only_right_ids _ _ a).mp (List.mem_of_mem_take ha)
    have hbR := (mem_only_right_ids _ _ b).mp (List.mem_of_mem_take hb)
    have has := hstrR a haR.1
    have hbs := hstrR b hbR.1
    cases a <;> simp [Value.isStr] at has
    cases b <;> simp [Value.isStr] at hbs
    simpa [valueLe, pyStr] using hab
  · intro t ht
    rcases List.mem_map.mp ht with ⟨k, hk, rfl⟩
    have := (mem_only_left_ids _ _ k).mp (List.mem_of_mem_take hk)
    exact ⟨k, this.1, this.2, rfl⟩
  · intro t ht
    rcases List.mem_map.mp ht with ⟨k, hk, rfl⟩
    have := (mem_only_right_ids _ _ k).mp (List.mem_of_mem_take hk)
    exact ⟨k, this.1, this.2, rfl⟩
  · intro hlen k hkl hkr
    have hall : (only_left_ids (keyList f) (keyList c)).take 5 =
        only_left_ids (keyList f) (keyList c) := List.take_all_of_le hlen
    rw [hall]
    exact List.mem_map_of_mem pyStr ((mem_only_left_ids _ _ k).mpr ⟨hkl, hkr⟩)
  · intro hlen k hkl hkr
    have hall : (only_right_ids (keyList f) (keyList c)).take 5 =
        only_right_ids (keyList f) (keyList c) := List.take_all_of_le hlen
    rw [hall]
    exact List.mem_map_of_mem pyStr ((mem_only_right_ids _ _ k).mpr ⟨hkl, hkr⟩)

/-- Witness for the amended C3 at left keys ["2", "1"] against right
key ["9"]. -/
theorem mismatch_samples_sorted_witness :
    ("customer_id" ∈ (⟨["customer_id"],
        [[("customer_id", Value.vStr "2")], [("customer_id", Value.vStr "1")]]⟩ : DataFrame).cols ∧
      "customer_id" ∈ (⟨["customer_id"],
        [[("customer_id", Value.vStr "9")]]⟩ : DataFrame).cols ∧
      (∀ k ∈ keyList (⟨["customer_id"],
        [[("customer_id", Value.vStr "2")], [("customer_id", Value.vStr "1")]]⟩ : DataFrame),
        k.isStr = true) ∧
      (∀ k ∈ keyList (⟨["customer_id"],
        [[("customer_id", Value.vStr "9")]]⟩ : DataFrame), k.isStr = true)) ∧
    ∃ km, (merge_with_diagnostics
        ⟨["customer_id"], [[("customer_id", Value.vStr "2")], [("customer_id", Value.vStr "1")]]⟩
        ⟨["customer_id"], [[("customer_id", Value.vStr "9")]]⟩).2.key_mismatches = some km ∧
      km.left_only_sample.length ≤ 5 ∧
      km.right_only_sample.length ≤ 5 ∧
      km.left_only_sample.Pairwise (fun a b => strLeb a b = true) ∧
      km.right_only_sample.Pairwise (fun a b => strLeb a b = true) ∧
      (∀ t ∈ km.left_only_sample, ∃ k,
        k ∈ keyList (⟨["customer_id"],
          [[("customer_id", Value.vStr "2")], [("customer_id", Value.vStr "1")]]⟩ : DataFrame) ∧
        k ∉ keyList (⟨["customer_id"],
          [[("customer_id", Value.vStr "9")]]⟩ : DataFrame) ∧ pyStr k = t) ∧
      (∀ t ∈ km.right_only_sample, ∃ k,
        k ∈ keyList (⟨["customer_id"],
          [[("customer_id", Value.vStr "9")]]⟩ : DataFrame) ∧
        k ∉ keyList (⟨["customer_id"],
          [[("customer_id", Value.vStr "2")], [("customer_id", Value.vStr "1")]]⟩ : DataFrame) ∧
        pyStr k = t) ∧
      (km.left_only_count ≤ 5 →
        ∀ k, k ∈ keyList (⟨["customer_id"],
          [[("customer_id", Value.vStr "2")], [("customer_id", Value.vStr "1")]]⟩ : DataFrame) →
          k ∉ keyList (⟨["customer_id"],
            [[("customer_id", Value.vStr "9")]]⟩ : DataFrame) →
          pyStr k ∈ km.left_only_sample) ∧
      (km.right_only_count ≤ 5 →
        ∀ k, k ∈ keyList (⟨["customer_id"],
          [[("customer_id", Value.vStr "9")]]⟩ : DataFrame) →
          k ∉ keyList (⟨["customer_id"],
            [[("customer_id", Value.vStr "2")], [("customer_id", Value.vStr "1")]]⟩ : DataFrame) →
          pyStr k ∈ km.right_only_sample) :=
  ⟨⟨by decide, by decide, by decide, by decide⟩,
   mismatch_samples_sorted
     ⟨["customer_id"], [[("customer_id", Value.vStr "2")], [("customer_id", Value.vStr "1")]]⟩
     ⟨["customer_id"], [[("customer_id", Value.vStr "9")]]⟩
     (by decide) (by decide) (by decide) (by decide)⟩

/-- C7: `run` returns exactly one of the exit codes 0 (success),
1 (fetch failure on either source), 2 (shape-validation failure on
either source), 3 (the merge produced an empty frame), or
4 (failure persisting the primary output), and on every path — the
early failures included — the diagnostics write is the last effect
attempted before returning. -/
theorem run_exit_codes_and_diagnostics
    (feedback_res customer_res : FetchResult) (csvOk : Bool) :
    ((run feedback_res customer_res csvOk).1 = 0 ∨
      (run feedback_res customer_res csvOk).1 = 1 ∨
      (run feedback_res customer_res csvOk).1 = 2 ∨
      (run feedback_res customer_res csvOk).1 = 3 ∨
      (run feedback_res customer_res csvOk).1 = 4) ∧
    (run feedback_res customer_res csvOk).2.getLast? = some Effect.diagWrite ∧
    ((run feedback_res customer_res csvOk).1 = 1 ↔
      ¬ (feedback_res.ok = true ∧ customer_res.ok = true)) ∧
    ((run feedback_res customer_res csvOk).1 = 2 ↔
      ((feedback_res.ok = true ∧ customer_res.ok = true) ∧
        ¬ ((expect_list_under_key feedback_res.data "feedback").1 = true ∧
           (expect_list_under_key customer_res.data "customers").1 = true))) ∧
    ((run feedback_res customer_res csvOk).1 = 3 ↔
      ((feedback_res.ok = true ∧ customer_res.ok = true) ∧
        ((expect_list_under_key feedback_res.data "feedback").1 = true ∧
         (expect_list_under_key customer_res.data "customers").1 = true) ∧
        (runMerged ((expect_list_under_key feedback_res.data "feedback").2.1.getD [])
          ((expect_list_under_key customer_res.data "customers").2.1.getD [])).empty = true)) ∧
    ((run feedback_res customer_res csvOk).1 = 4 ↔
      ((feedback_res.ok = true ∧ customer_res.ok = true) ∧
        ((expect_list_under_key feedback_res.data "feedback").1 = true ∧
         (expect_list_under_key customer_res.data "customers").1 = true) ∧
        (runMerged ((expect_list_under_key feedback_res.data "feedback").2.1.getD [])
          ((expect_list_under_key customer_res.data "customers").2.1.getD [])).empty = false ∧
        csvOk = false)) ∧
    ((run feedback_res customer_res csvOk).1 = 0 ↔
      ((feedback_res.ok = true ∧ customer_res.ok = true) ∧
        ((expect_list_under_key feedback_res.data "feedback").1 = true ∧
         (expect_list_under_key customer_res.data "customers").1 = true) ∧
        (runMerged ((expect_list_under_key feedback_res.data "feedback").2.1.getD [])
          ((expect_list_under_key customer_res.data "customers").2.1.getD [])).empty = false ∧
        csvOk = true)) := by
  unfold run
  by_cases h1 : feedback_res.ok = true ∧ customer_res.ok = true
  · rw [if_neg (not_not_intro h1)]
    by_cases h2 : (expect_list_under_key feedback_res.data "feedback").1 = true ∧
        (expect_list_under_key customer_res.data "customers").1 = true
    · rw [if_neg (not_not_intro h2)]
      by_cases h3 : (runMerged
          ((expect_list_under_key feedback_res.data "feedback").2.1.getD [])
          ((expect_list_under_key customer_res.data "customers").2.1.getD [])).empty = true
      · rw [if_pos h3]
        refine ⟨Or.inr (Or.inr (Or.inr (Or.inl rfl))), rfl, ?_, ?_, ?_, ?_, ?_⟩ <;>
          simp [h1, h2, h3]
      · rw [if_neg h3]
        rw [Bool.not_eq_true] at h3
        by_cases h4 : csvOk = true
        · rw [if_pos h4]
          refine ⟨Or.inl rfl, rfl, ?_, ?_, ?_, ?_, ?_⟩ <;>
            simp [h1, h2, h3, h4]
        · rw [if_neg h4]
          rw [Bool.not_eq_true] at h4
          refine ⟨Or.inr (Or.inr (Or.inr (Or.inr rfl))), rfl, ?_, ?_, ?_, ?_, ?_⟩ <;>
            simp [h1, h2, h3, h4]
    · rw [if_pos h2]
      refine ⟨Or.inr (Or.inr (Or.inl rfl)), rfl, ?_, ?_, ?_, ?_, ?_⟩ <;>
        simp [h1, h2]
  · rw [if_pos h1]
    refine ⟨Or.inr (Or.inl rfl), rfl, ?_, ?_, ?_, ?_, ?_⟩ <;>
      simp [h1]

end CxPipeline
